import Mathlib

/-!
Verification development for the TCR2HLA query engine
(`CLI_tools/query_database/query_API.py` and
`CLI_tools/impute_HLAs/gene_formating_converter.py`).

Modelling conventions of the shallow embedding:
* Python strings are modelled as `List Char`.
* A pandas dataframe holding TCR-HLA association rows is modelled as a
  `List AssociationRecord` (row order is the dataframe's row order).
* Python's single exception type `ValueError`, raised with different
  messages at the different raise sites of `query_API.py`, is modelled by
  the inductive `QueryError`; each constructor corresponds to one raise
  site and carries the data interpolated into that site's message.
* File-system access is abstracted by content: the interface object
  carries the parsed rows of `adaptive_imgt_mapping.csv` found at its
  `_database_path` (field `mapping_rows`), and the parquet file's rows
  (field `_database`).
* `print` calls and `del` statements have no observable effect in the
  model and are dropped.
-/

/-- `pdUniqueAux l seen` collects the elements of `l` not in `seen`,
keeping the first occurrence of each: the recursion behind `pdUnique`. -/
def pdUniqueAux {α : Type} [DecidableEq α] : List α → List α → List α
  | [], _ => []
  | x :: xs, seen =>
    if x ∈ seen then pdUniqueAux xs seen else x :: pdUniqueAux xs (x :: seen)

/-- Model of `pandas.Series.unique()`: distinct values in order of first
appearance. -/
def pdUnique {α : Type} [DecidableEq α] (l : List α) : List α :=
  pdUniqueAux l []

theorem mem_pdUniqueAux {α : Type} [DecidableEq α] (l : List α) :
    ∀ (seen : List α) (x : α), x ∈ pdUniqueAux l seen ↔ (x ∈ l ∧ x ∉ seen) := by
  induction l with
  | nil => intro seen x; simp [pdUniqueAux]
  | cons y ys ih =>
    intro seen x
    by_cases hy : y ∈ seen
    · simp only [pdUniqueAux, if_pos hy, ih, List.mem_cons]
      constructor
      · rintro ⟨hx, hns⟩; exact ⟨Or.inr hx, hns⟩
      · rintro ⟨hx | hx, hns⟩
        · exact absurd (hx ▸ hy) hns
        · exact ⟨hx, hns⟩
    · simp only [pdUniqueAux, if_neg hy, List.mem_cons, ih]
      by_cases hxy : x = y
      · subst hxy; simp [hy]
      · simp [hxy]

theorem mem_pdUnique {α : Type} [DecidableEq α] (l : List α) (x : α) :
    x ∈ pdUnique l ↔ x ∈ l := by
  simp [pdUnique, mem_pdUniqueAux]

/-- Lookup in a Python `dict` built from a list of key/value pairs in
insertion order: a later binding of the same key overwrites an earlier
one, so the lookup prefers the rightmost binding. -/
def pyDictGet? : List (List Char × List Char) → List Char → Option (List Char)
  | [], _ => none
  | p :: rest, k =>
    match pyDictGet? rest k with
    | some v => some v
    | none => if p.1 = k then some p.2 else none

/-- Model of `pandas.Series.replace(d)` applied to one cell: a value that
is a key of `d` is replaced by its image, any other value passes through
unchanged. -/
def pyReplace (d : List (List Char × List Char)) (s : List Char) : List Char :=
  match pyDictGet? d s with
  | some v => v
  | none => s

theorem pyDictGet?_eq_none_iff (d : List (List Char × List Char)) (k : List Char) :
    pyDictGet? d k = none ↔ k ∉ d.map Prod.fst := by
  induction d with
  | nil => simp [pyDictGet?]
  | cons p rest ih =>
    have hcons : pyDictGet? (p :: rest) k =
        match pyDictGet? rest k with
        | some v => some v
        | none => if p.1 = k then some p.2 else none := rfl
    cases hrest : pyDictGet? rest k with
    | some v =>
      simp only [hrest] at hcons
      have hk : k ∈ rest.map Prod.fst := by
        by_contra hc
        rw [ih.mpr hc] at hrest
        exact Option.noConfusion hrest
      rw [List.map_cons, List.mem_cons, hcons]
      simp [hk]
    | none =>
      simp only [hrest] at hcons
      have hk : k ∉ rest.map Prod.fst := ih.mp hrest
      rw [List.map_cons, List.mem_cons, hcons]
      by_cases hpk : p.1 = k
      · simp [hpk]
      · simp [if_neg hpk, hk, Ne.symm hpk]

theorem pyReplace_eq_self (d : List (List Char × List Char)) (k : List Char)
    (h : k ∉ d.map Prod.fst) : pyReplace d k = k := by
  unfold pyReplace
  rw [(pyDictGet?_eq_none_iff d k).mpr h]

/-- Helper recursion for `levDist`: given `f ys = levDist xs ys` for every
`ys`, computes `fun ys => levDist (x :: xs) ys` by structural recursion on
`ys`. -/
def lev1 (x : Char) (f : List Char → Nat) : List Char → Nat
  | [] => f [] + 1
  | y :: ys =>
    if x = y then f ys
    else 1 + min (f (y :: ys)) (min (lev1 x f ys) (f ys))

/-- Model of `Levenshtein.distance`: classic edit distance between two
character sequences (insertions, deletions, substitutions, unit cost). -/
def levDist : List Char → List Char → Nat
  | [], ys => ys.length
  | x :: xs, ys => lev1 x (levDist xs) ys

theorem levDist_self (a : List Char) : levDist a a = 0 := by
  induction a with
  | nil => rfl
  | cons x xs ih => simp [levDist, lev1, ih]

theorem eq_of_levDist_eq_zero (a : List Char) :
    ∀ b : List Char, levDist a b = 0 → a = b := by
  induction a with
  | nil =>
    intro b h
    simp only [levDist, List.length_eq_zero] at h
    exact h.symm
  | cons x xs ih =>
    intro b h
    cases b with
    | nil => simp [levDist, lev1] at h
    | cons y ys =>
      simp only [levDist, lev1] at h
      by_cases hxy : x = y
      · rw [if_pos hxy] at h
        exact hxy ▸ congrArg (x :: ·) (ih ys h)
      · rw [if_neg hxy] at h
        omega

/-- One row of the TCR-HLA association dataframe loaded from the parquet
database (`required_cols` of `HLATCRDBInterface.__init__`). -/
structure AssociationRecord where
  loci : List Char
  allele_name : List Char
  v_gene : List Char
  j_gene : List Char
  CDR3 : List Char
deriving DecidableEq

/-- The `_DATA_TYPE` attribute: set to exactly `'TRA'` or `'TRB'` by the
`match database_name` in `__init__`. -/
inductive DataType where
  | TRA
  | TRB
deriving DecidableEq

/-- One row of the `adaptive_imgt_mapping.csv` reference file
(`gene_formating_converter.py`, columns `species`, `imgt`, `adaptive`). -/
structure MappingRow where
  species : List Char
  imgt : List Char
  adaptive : List Char
deriving DecidableEq

/-- The query interface object of `query_API.py`.  `_database` is the
loaded parquet table, `_DATA_TYPE` the chain tag, and `mapping_rows`
abstracts the file system: it is the parsed content of the
`adaptive_imgt_mapping.csv` file located at `self._database_path`, which
the two builder functions read. -/
structure HLATCRDBInterface where
  _database : List AssociationRecord
  _DATA_TYPE : DataType
  mapping_rows : List MappingRow
deriving DecidableEq

/-- The distinct raise sites of `query_API.py` (all raise Python
`ValueError`); each constructor carries the data interpolated into the
corresponding message. -/
inductive QueryError where
  /-- Line 85: "Invalid allele_name format. Expected 'Locus*AlleleName'". -/
  | invalidAlleleFormat
  /-- The `ValueError` Python raises when `allele_name.split('-')` yields
  more than two fields and the unpacking at line 87 fails. -/
  | unpackMismatch
  /-- Lines 93-95: unsupported locus; carries the list of supported loci
  that the message enumerates. -/
  | unsupportedLocus (supported : List (List Char))
  /-- Line 100: "No data found for locus" (shown unreachable below). -/
  | noDataForLocus (locus : List Char)
  /-- Lines 106-109: unsupported allele; carries the allele, the locus and
  the list of supported alleles that the message enumerates. -/
  | unsupportedAllele (allele locus : List Char) (supported : List (List Char))
  /-- Lines 147/235: unsupported gene-name format token. -/
  | unsupportedFormat (format : List Char)
  /-- Lines 172-175: query V gene absent from the working table. -/
  | unknownVGene (v : List Char)
  /-- Lines 178-181: query J gene absent from the working table. -/
  | unknownJGene (j : List Char)
  /-- Modelling artifact of the heap embedding only: a heap reference that
  does not hold a frame of the expected shape (unreachable under a
  well-typed heap, see the frame theorems). -/
  | modelBadFrame
deriving DecidableEq

/-- The string literal `'human'` used by both builders. -/
def humanStr : List Char := "human".data

/-- The string literal `'Adaptive'`. -/
def adaptiveFmt : List Char := "Adaptive".data

/-- The string literal `'IMGT'`. -/
def imgtFmt : List Char := "IMGT".data

/-- `imgt_to_adaptive_builder` of `gene_formating_converter.py`: filters
the mapping rows to `species == 'human'` and builds the dict
`{imgt: adaptive}` (as an insertion-ordered pair list; `pyDictGet?` gives
the dict's lookup semantics).  The empty-after-filter case returns the
empty dict, exactly as the source's early `return {}`. -/
def imgt_to_adaptive_builder (mapping_rows : List MappingRow) :
    List (List Char × List Char) :=
  (mapping_rows.filter (fun r => r.species = humanStr)).map (fun r => (r.imgt, r.adaptive))

/-- `adaptive_to_imgt_builder` of `gene_formating_converter.py`: same
rows, dict `{adaptive: imgt}`. -/
def adaptive_to_imgt_builder (mapping_rows : List MappingRow) :
    List (List Char × List Char) :=
  (mapping_rows.filter (fun r => r.species = humanStr)).map (fun r => (r.adaptive, r.imgt))

/-- The column rewrite `work_database['v_gene'] = work_database['v_gene'].replace(D)`
(and the same for `j_gene`) applied to every row of the working table. -/
def translateTable (d : List (List Char × List Char)) (db : List AssociationRecord) :
    List AssociationRecord :=
  db.map (fun r => { r with v_gene := pyReplace d r.v_gene, j_gene := pyReplace d r.j_gene })

/-- The two sequential conversion blocks shared verbatim by
`get_restricted_clonotypes_matching_a_clonotype` (lines 153-169) and
`get_restricted_clonotypes_matching_clonotypes` (lines 249-263): a TRB
table queried in IMGT format is rewritten through `adaptive_to_imgt_builder`,
a TRA table queried in Adaptive format through `imgt_to_adaptive_builder`,
otherwise the working table is left as loaded.  (The source's
`globals()`/`locals()` probes for the builder functions always succeed,
since both are imported at module top; the `NotImplementedError` branches
are dead code and not modelled.) -/
def convertDatabase (dt : DataType) (format : List Char) (mapping_rows : List MappingRow)
    (db : List AssociationRecord) : List AssociationRecord :=
  let db1 := if dt = DataType.TRB ∧ format = imgtFmt then
      translateTable (adaptive_to_imgt_builder mapping_rows) db
    else db
  if dt = DataType.TRA ∧ format = adaptiveFmt then
    translateTable (imgt_to_adaptive_builder mapping_rows) db1
  else db1

/-- `get_clonotypes_associated_to_alleles` (query_API.py lines 68-115).
The dataframe expression
`self._database.loc[(loci == loci_name) & (allele_name == allele_name)]`
is the row filter at the end; `unique()` calls are `pdUnique`. -/
def get_clonotypes_associated_to_alleles (self : HLATCRDBInterface)
    (allele_name : List Char) : Except QueryError (List AssociationRecord) :=
  if '-' ∉ allele_name then
    Except.error QueryError.invalidAlleleFormat
  else
    match allele_name.splitOn '-' with
    | [loci_name, allele] =>
      if loci_name ∉ pdUnique (self._database.map (·.loci)) then
        Except.error (QueryError.unsupportedLocus (pdUnique (self._database.map (·.loci))))
      else
        if (self._database.filter (fun r => r.loci = loci_name)).isEmpty then
          Except.error (QueryError.noDataForLocus loci_name)
        else
          if allele_name ∉ pdUnique ((self._database.filter
              (fun r => r.loci = loci_name)).map (·.allele_name)) then
            Except.error (QueryError.unsupportedAllele allele loci_name
              (pdUnique ((self._database.filter (fun r => r.loci = loci_name)).map (·.allele_name))))
          else
            Except.ok (self._database.filter
              (fun r => r.loci = loci_name ∧ r.allele_name = allele_name))
    | _ => Except.error QueryError.unpackMismatch

/-- A row of the result of the single-clonotype query: a candidate row of
the working table together with its added `distance` column. -/
structure MatchedRecord where
  row : AssociationRecord
  distance : Nat
deriving DecidableEq

/-- A row of the result of the bulk query: a row of the cross merge (all
`DB_*` columns from the working table and all `QW_*` columns from the
query table) together with its added `distance` column. -/
structure QueryRecord where
  v_gene : List Char
  j_gene : List Char
  CDR3 : List Char
deriving DecidableEq

structure BulkMatchedRecord where
  db : AssociationRecord
  qw : QueryRecord
  distance : Nat
deriving DecidableEq

/-- `get_restricted_clonotypes_matching_a_clonotype` (query_API.py lines
117-202).  `num_mismatches` is a Python `int`, modelled as `Int`; the
distances themselves are natural numbers.  The dead defensive branches
(`NotImplementedError` probes, the `CDR3`-column `KeyError`, the
`Levenshtein` `hasattr` check) are vacuous in the typed model. -/
def get_restricted_clonotypes_matching_a_clonotype (self : HLATCRDBInterface)
    (v_gene j_gene format CDR3_amino_acids : List Char) (num_mismatches : Int := 1) :
    Except QueryError (List MatchedRecord) :=
  if format ∉ [adaptiveFmt, imgtFmt] then
    Except.error (QueryError.unsupportedFormat format)
  else
    -- `work_database` is `convertDatabase … self._database`; `candiate_table`
    -- is its exact (v_gene, j_gene) row filter, to which the `distance`
    -- column is added before the threshold filter.
    if v_gene ∉ pdUnique ((convertDatabase self._DATA_TYPE format self.mapping_rows
        self._database).map (·.v_gene)) then
      Except.error (QueryError.unknownVGene v_gene)
    else if j_gene ∉ pdUnique ((convertDatabase self._DATA_TYPE format self.mapping_rows
        self._database).map (·.j_gene)) then
      Except.error (QueryError.unknownJGene j_gene)
    else
      Except.ok ((((convertDatabase self._DATA_TYPE format self.mapping_rows
          self._database).filter
            (fun r => r.v_gene = v_gene ∧ r.j_gene = j_gene)).map
              (fun r => MatchedRecord.mk r (levDist r.CDR3 CDR3_amino_acids))).filter
                (fun m => (m.distance : Int) ≤ num_mismatches))

/-- The cross merge `work_database_renamed.merge(query_clonotypes_renamed,
how='cross')` (line 281): every table row paired with every query row, in
pandas cross-merge order. -/
def crossRows (work : List AssociationRecord) (query : List QueryRecord) :
    List (AssociationRecord × QueryRecord) :=
  work.flatMap (fun d => query.map (fun q => (d, q)))

/-- The exact V/J gene filter on the crossed dataset (lines 284-287). -/
def geneFilter (crossed : List (AssociationRecord × QueryRecord)) :
    List (AssociationRecord × QueryRecord) :=
  crossed.filter (fun p => p.1.v_gene = p.2.v_gene ∧ p.1.j_gene = p.2.j_gene)

/-- `get_restricted_clonotypes_matching_clonotypes` (query_API.py lines
204-316).  The required-columns check on `query_clonotypes` (lines
239-244) is satisfied by construction in the typed model, since
`QueryRecord` carries exactly the three required columns; the
empty-candidate branch at line 289 only prints an advisory message. -/
def get_restricted_clonotypes_matching_clonotypes (self : HLATCRDBInterface)
    (query_clonotypes : List QueryRecord) (format : List Char) (num_mismatches : Int := 1) :
    Except QueryError (List BulkMatchedRecord) :=
  if format ∉ [adaptiveFmt, imgtFmt] then
    Except.error (QueryError.unsupportedFormat format)
  else
    -- the crossed dataset of the converted working table and the query
    -- table, gene-filtered, with the `distance` column added, then
    -- threshold-filtered.
    Except.ok (((geneFilter (crossRows (convertDatabase self._DATA_TYPE format
        self.mapping_rows self._database) query_clonotypes)).map
          (fun p => BulkMatchedRecord.mk p.1 p.2 (levDist p.1.CDR3 p.2.CDR3))).filter
            (fun m => (m.distance : Int) ≤ num_mismatches))

deriving instance DecidableEq for Except

/-!
Heap model for the frame-effect claims.  Python dataframes are heap
objects: `copy(deep=True)` allocates a fresh object, a column assignment
(`df['col'] = ...`) mutates the object in place, and `rename`/`merge`/`.loc`
return fresh objects.  The heap is a list of frame values addressed by
index; allocation appends at the end.  The engine's scalar attributes
(`_DATA_TYPE`, the mapping-file content standing for `_database_path`)
are immutable Python strings and are passed as plain values.
-/

/-- A pandas dataframe object living on the heap, in each of the shapes
the query functions create. -/
inductive FrameVal where
  /-- An association table (the engine's `_database`, `work_database`,
  `work_database_renamed`, or a candidate subset of it). -/
  | assoc (rows : List AssociationRecord)
  /-- A query-clonotype table. -/
  | query (rows : List QueryRecord)
  /-- The crossed dataset before the `distance` column is assigned. -/
  | pairs (rows : List (AssociationRecord × QueryRecord))
  /-- A crossed dataset carrying its `distance` column. -/
  | bulk (rows : List BulkMatchedRecord)
  /-- A candidate table carrying its `distance` column. -/
  | matched (rows : List MatchedRecord)
deriving DecidableEq

abbrev Heap := List FrameVal

/-- `get_clonotypes_associated_to_alleles` run against an explicit heap:
the method only reads `self._database` and builds its result; it performs
no in-place column assignment, so the heap comes back untouched. -/
def get_clonotypes_heap (h : Heap) (selfRef : Nat) (allele_name : List Char) :
    Heap × Except QueryError (List AssociationRecord) :=
  match h[selfRef]? with
  | some (FrameVal.assoc db) =>
    (h, get_clonotypes_associated_to_alleles ⟨db, DataType.TRB, []⟩ allele_name)
  | _ => (h, Except.error QueryError.modelBadFrame)

/-- `get_restricted_clonotypes_matching_a_clonotype` run against an
explicit heap.  Allocations and in-place writes mirror the source:
`work_database = self._database.copy(deep=True)` (line 150) allocates,
the conversion blocks assign columns of that copy in place (lines
153-169), `candiate_table = work_database.loc[...].copy(deep=True)`
(line 183) allocates, `candiate_table['distance'] = ...` (line 195)
writes in place, and `target_clonotypes = ....copy(deep=True)` (line 196)
allocates the returned frame.

The shared opening steps of both fuzzy queries on the heap are factored
into `copyConvertHeap`:
`work_database = self._database.copy(deep=True)` allocates a fresh frame
at index `h.length`, and when a conversion is triggered the two
column assignments write the converted table into that fresh frame in
place. -/
def copyConvertHeap (h : Heap) (dt : DataType) (format : List Char)
    (mapping_rows : List MappingRow) (db : List AssociationRecord) : Heap :=
  if (dt = DataType.TRB ∧ format = imgtFmt) ∨ (dt = DataType.TRA ∧ format = adaptiveFmt) then
    (h ++ [FrameVal.assoc db]).set h.length
      (FrameVal.assoc (convertDatabase dt format mapping_rows db))
  else h ++ [FrameVal.assoc db]

def single_match_heap (h : Heap) (selfRef : Nat) (dt : DataType)
    (mapping_rows : List MappingRow) (v_gene j_gene format CDR3_amino_acids : List Char)
    (num_mismatches : Int) : Heap × Except QueryError (List MatchedRecord) :=
  match h[selfRef]? with
  | some (FrameVal.assoc db) =>
    if format ∉ [adaptiveFmt, imgtFmt] then
      (h, Except.error (QueryError.unsupportedFormat format))
    else
      if v_gene ∉ pdUnique ((convertDatabase dt format mapping_rows db).map (·.v_gene)) then
        (copyConvertHeap h dt format mapping_rows db,
         Except.error (QueryError.unknownVGene v_gene))
      else if j_gene ∉ pdUnique ((convertDatabase dt format mapping_rows db).map (·.j_gene)) then
        (copyConvertHeap h dt format mapping_rows db,
         Except.error (QueryError.unknownJGene j_gene))
      else
        -- `candiate_table = work_database.loc[...].copy(deep=True)` allocates,
        -- the `distance` column assignment writes it in place, and the final
        -- threshold filter `.copy(deep=True)` allocates the returned frame.
        let work := convertDatabase dt format mapping_rows db
        let h2 := copyConvertHeap h dt format mapping_rows db
        let candiate_table := work.filter (fun r => r.v_gene = v_gene ∧ r.j_gene = j_gene)
        let h3 := h2 ++ [FrameVal.assoc candiate_table]
        let withDistance := candiate_table.map
          (fun r => MatchedRecord.mk r (levDist r.CDR3 CDR3_amino_acids))
        let h4 := h3.set h2.length (FrameVal.matched withDistance)
        let target := withDistance.filter (fun m => (m.distance : Int) ≤ num_mismatches)
        let h5 := h4 ++ [FrameVal.matched target]
        (h5, Except.ok target)
  | _ => (h, Except.error QueryError.modelBadFrame)

/-- `get_restricted_clonotypes_matching_clonotypes` run against an
explicit heap.  `work_database = self._database.copy(deep=True)` (line
246) allocates, the conversion blocks write that copy in place (lines
249-263), `rename` (lines 266-268) allocates,
`query_clonotypes.copy(deep=True).rename(...)` (lines 270-272) allocates
— the caller's frame at `queryRef` is never written —, the cross merge
(line 281) and the gene-filter `.loc` (lines 284-287) allocate,
`crossed_dataset['distance'] = ...` (lines 303-306) writes in place, and
the final `.copy(deep=True)` (line 308) allocates the returned frame. -/
def bulk_match_heap (h : Heap) (selfRef queryRef : Nat) (dt : DataType)
    (mapping_rows : List MappingRow) (format : List Char) (num_mismatches : Int) :
    Heap × Except QueryError (List BulkMatchedRecord) :=
  match h[selfRef]?, h[queryRef]? with
  | some (FrameVal.assoc db), some (FrameVal.query query_clonotypes) =>
    if format ∉ [adaptiveFmt, imgtFmt] then
      (h, Except.error (QueryError.unsupportedFormat format))
    else
      let work := convertDatabase dt format mapping_rows db
      let h2 := copyConvertHeap h dt format mapping_rows db
      let h3 := h2 ++ [FrameVal.assoc work]
      let h4 := h3 ++ [FrameVal.query query_clonotypes]
      let crossed0 := crossRows work query_clonotypes
      let h5 := h4 ++ [FrameVal.pairs crossed0]
      let filtered := geneFilter crossed0
      let h6 := h5 ++ [FrameVal.pairs filtered]
      let withDistance := filtered.map
        (fun p => BulkMatchedRecord.mk p.1 p.2 (levDist p.1.CDR3 p.2.CDR3))
      let h7 := h6.set h5.length (FrameVal.bulk withDistance)
      let target := withDistance.filter (fun m => (m.distance : Int) ≤ num_mismatches)
      let h8 := h7 ++ [FrameVal.bulk target]
      (h8, Except.ok target)
  | _, _ => (h, Except.error QueryError.modelBadFrame)

/-- `PreservesBelow h₀ h`: heap `h` extends `h₀` without having disturbed
any of the objects that already existed in `h₀`. -/
def PreservesBelow (h₀ h : Heap) : Prop :=
  h₀.length ≤ h.length ∧ ∀ i, i < h₀.length → h[i]? = h₀[i]?

theorem preservesBelow_refl (h₀ : Heap) : PreservesBelow h₀ h₀ :=
  ⟨le_refl _, fun _ _ => rfl⟩

theorem preservesBelow_append (h₀ h : Heap) (hp : PreservesBelow h₀ h) (v : FrameVal) :
    PreservesBelow h₀ (h ++ [v]) := by
  obtain ⟨hlen, hget⟩ := hp
  refine ⟨by simpa using Nat.le_succ_of_le hlen, fun i hi => ?_⟩
  rw [List.getElem?_append_left (hi.trans_le hlen)]
  exact hget i hi

theorem preservesBelow_set (h₀ h : Heap) (hp : PreservesBelow h₀ h) (j : Nat)
    (hj : h₀.length ≤ j) (v : FrameVal) : PreservesBelow h₀ (h.set j v) := by
  obtain ⟨hlen, hget⟩ := hp
  refine ⟨by simpa using hlen, fun i hi => ?_⟩
  rw [List.getElem?_set_ne (by omega : j ≠ i)]
  exact hget i hi

/-! Helper lemmas about keys and the fixed `'-'` delimiter. -/

theorem splitOn_pair_eq (key l a : List Char) (h : key.splitOn '-' = [l, a]) :
    key = l ++ '-' :: a := by
  have h2 : List.intercalate ['-'] (key.splitOn '-') = key := List.intercalate_splitOn key '-'
  rw [h] at h2
  simpa [List.intercalate, List.intersperse] using h2.symm

theorem dash_mem_of_splitOn_pair (key l a : List Char) (h : key.splitOn '-' = [l, a]) :
    '-' ∈ key := by
  rw [splitOn_pair_eq key l a h]
  simp

theorem not_encode_of_nodash (key : List Char) (h : '-' ∉ key) :
    ∀ l a : List Char, key ≠ l ++ '-' :: a := by
  intro l a heq
  apply h
  rw [heq]
  simp

/-- Discriminator for the line-100 error value, used to state that this
branch is unreachable. -/
def isNoDataForLocusError : Except QueryError (List AssociationRecord) → Bool
  | Except.error (QueryError.noDataForLocus _) => true
  | _ => false

/-! Sample data used by the witness theorems. -/

def recA : AssociationRecord :=
  ⟨"A".data, "A-02:01".data, "V1".data, "J1".data, "CASS".data⟩

def db1 : HLATCRDBInterface := ⟨[recA], DataType.TRB, []⟩

def qrec1 : QueryRecord := ⟨"V1".data, "J1".data, "CASS".data⟩

/-- C1: for every loaded table and every `(locus, allele_name)` pair
actually present in it (with the loaded-table invariant that the
`allele_name` key splits at the fixed delimiter into exactly that locus
and an allele part), `get_clonotypes_associated_to_alleles` on the key
returns exactly the rows whose `loci` equals the locus and whose
`allele_name` equals the full key, and no other rows — an exact index
lookup with no mismatch search. -/
theorem allele_lookup_exact (self : HLATCRDBInterface) (r : AssociationRecord)
    (rest : List Char) (hmem : r ∈ self._database)
    (hkey : r.allele_name.splitOn '-' = [r.loci, rest]) :
    get_clonotypes_associated_to_alleles self r.allele_name =
      Except.ok (self._database.filter
        (fun x => x.loci = r.loci ∧ x.allele_name = r.allele_name)) ∧
    ∀ x, (x ∈ self._database.filter
        (fun x => x.loci = r.loci ∧ x.allele_name = r.allele_name)) ↔
      (x ∈ self._database ∧ x.loci = r.loci ∧ x.allele_name = r.allele_name) := by
  have hdash := dash_mem_of_splitOn_pair _ _ _ hkey
  constructor
  · unfold get_clonotypes_associated_to_alleles
    rw [if_neg (not_not_intro hdash)]
    split
    · next loci_name allele heq =>
      rw [hkey] at heq
      injection heq with h1 h2
      injection h2 with h2 _
      subst h1
      have hloci : r.loci ∈ pdUnique (self._database.map (·.loci)) := by
        rw [mem_pdUnique]
        exact List.mem_map.mpr ⟨r, hmem, rfl⟩
      rw [if_neg (not_not_intro hloci)]
      have hrfilter : r ∈ self._database.filter (fun x => x.loci = r.loci) := by
        rw [List.mem_filter]
        exact ⟨hmem, by simp⟩
      have hne : ((self._database.filter (fun x => x.loci = r.loci)).isEmpty) = false := by
        cases hfe : self._database.filter (fun x => x.loci = r.loci) with
        | nil => rw [hfe] at hrfilter; cases hrfilter
        | cons y ys => rfl
      rw [if_neg (by simp [hne])]
      have hallele : r.allele_name ∈ pdUnique ((self._database.filter
          (fun x => x.loci = r.loci)).map (·.allele_name)) := by
        rw [mem_pdUnique]
        exact List.mem_map.mpr ⟨r, hrfilter, rfl⟩
      rw [if_neg (not_not_intro hallele)]
    · next heq =>
      exact absurd hkey (heq r.loci rest)
  · intro x
    rw [List.mem_filter]
    simp

theorem allele_lookup_exact_witness :
    recA ∈ db1._database ∧
    recA.allele_name.splitOn '-' = [recA.loci, "02:01".data] ∧
    get_clonotypes_associated_to_alleles db1 recA.allele_name = Except.ok [recA] :=
  ⟨by decide, by decide, by
    rw [(allele_lookup_exact db1 recA "02:01".data (by decide) (by decide)).1]
    decide⟩

/-- C4: on a well-formed key whose locus is absent from the table,
`get_clonotypes_associated_to_alleles` fails with the line-93 error whose
message enumerates the table's distinct loci; on a key whose locus is
present but whose full key is not among that locus's alleles, it fails
with the line-106 error whose message enumerates the valid alleles of the
locus. -/
theorem allele_lookup_absent (self : HLATCRDBInterface) (key l a : List Char)
    (hkey : key.splitOn '-' = [l, a]) :
    (l ∉ self._database.map (·.loci) →
      get_clonotypes_associated_to_alleles self key =
        Except.error (QueryError.unsupportedLocus (pdUnique (self._database.map (·.loci))))) ∧
    (l ∈ self._database.map (·.loci) →
      key ∉ (self._database.filter (fun r => r.loci = l)).map (·.allele_name) →
      get_clonotypes_associated_to_alleles self key =
        Except.error (QueryError.unsupportedAllele a l
          (pdUnique ((self._database.filter (fun r => r.loci = l)).map (·.allele_name))))) := by
  have hdash := dash_mem_of_splitOn_pair _ _ _ hkey
  constructor
  · intro habs
    unfold get_clonotypes_associated_to_alleles
    rw [if_neg (not_not_intro hdash)]
    split
    · next loci_name allele heq =>
      rw [hkey] at heq
      injection heq with h1 h2
      injection h2 with h2 _
      subst h1; subst h2
      rw [if_pos (by rw [mem_pdUnique]; exact habs)]
    · next heq => exact absurd hkey (heq l a)
  · intro hpres habs
    unfold get_clonotypes_associated_to_alleles
    rw [if_neg (not_not_intro hdash)]
    split
    · next loci_name allele heq =>
      rw [hkey] at heq
      injection heq with h1 h2
      injection h2 with h2 _
      subst h1; subst h2
      have hloci : l ∈ pdUnique (self._database.map (·.loci)) := by
        rw [mem_pdUnique]; exact hpres
      rw [if_neg (not_not_intro hloci)]
      obtain ⟨r, hrmem, hrl⟩ := List.mem_map.mp hpres
      have hrfilter : r ∈ self._database.filter (fun x => x.loci = l) := by
        rw [List.mem_filter]
        exact ⟨hrmem, by simp [hrl]⟩
      have hne : ((self._database.filter (fun x => x.loci = l)).isEmpty) = false := by
        cases hfe : self._database.filter (fun x => x.loci = l) with
        | nil => rw [hfe] at hrfilter; cases hrfilter
        | cons y ys => rfl
      rw [if_neg (by simp [hne])]
      rw [if_pos (by rw [mem_pdUnique]; exact habs)]
    · next heq => exact absurd hkey (heq l a)

theorem allele_lookup_absent_witness :
    "Z-99:99".data.splitOn '-' = ["Z".data, "99:99".data] ∧
    "Z".data ∉ db1._database.map (·.loci) ∧
    get_clonotypes_associated_to_alleles db1 "Z-99:99".data =
      Except.error (QueryError.unsupportedLocus (pdUnique (db1._database.map (·.loci)))) ∧
    "A".data ∈ db1._database.map (·.loci) ∧
    "A-99:99".data ∉ (db1._database.filter (fun r => r.loci = "A".data)).map (·.allele_name) ∧
    get_clonotypes_associated_to_alleles db1 "A-99:99".data =
      Except.error (QueryError.unsupportedAllele "99:99".data "A".data
        (pdUnique ((db1._database.filter (fun r => r.loci = "A".data)).map (·.allele_name)))) :=
  ⟨by decide, by decide,
   (allele_lookup_absent db1 "Z-99:99".data "Z".data "99:99".data (by decide)).1 (by decide),
   by decide, by decide,
   (allele_lookup_absent db1 "A-99:99".data "A".data "99:99".data (by decide)).2
     (by decide) (by decide)⟩

/-- C6: on every input string that does not encode a locus and an allele
name separated by the fixed `'-'` delimiter, the lookup fails with the
line-85 format error. -/
theorem allele_lookup_malformed (self : HLATCRDBInterface) (key : List Char)
    (h : ∀ l a : List Char, key ≠ l ++ '-' :: a) :
    get_clonotypes_associated_to_alleles self key =
      Except.error QueryError.invalidAlleleFormat := by
  have hnd : '-' ∉ key := by
    intro hmem
    obtain ⟨s, t, hst⟩ := List.append_of_mem hmem
    exact h s t hst
  unfold get_clonotypes_associated_to_alleles
  rw [if_pos hnd]

theorem allele_lookup_malformed_witness :
    get_clonotypes_associated_to_alleles db1 "A0201".data =
      Except.error QueryError.invalidAlleleFormat :=
  allele_lookup_malformed db1 "A0201".data (not_encode_of_nodash "A0201".data (by decide))

/-- C10: the "No data found for locus" branch of
`get_clonotypes_associated_to_alleles` (line 100) is unreachable: a locus
that passes the membership check against the table's distinct loci always
selects a non-empty row set, so no call ever returns this error. -/
theorem allele_lookup_noData_unreachable (self : HLATCRDBInterface) (key : List Char) :
    isNoDataForLocusError (get_clonotypes_associated_to_alleles self key) = false := by
  unfold get_clonotypes_associated_to_alleles
  split
  · rfl
  · split
    · next loci_name allele heq =>
      split
      · rfl
      · next hloci =>
        split
        · next hempty =>
          exfalso
          rw [not_not, mem_pdUnique] at hloci
          obtain ⟨r, hrmem, hrl⟩ := List.mem_map.mp hloci
          have hrfilter : r ∈ self._database.filter (fun x => x.loci = loci_name) := by
            rw [List.mem_filter]
            exact ⟨hrmem, by simp [hrl]⟩
          rw [List.isEmpty_iff] at hempty
          rw [hempty] at hrfilter
          cases hrfilter
        · split
          · rfl
          · rfl
    · rfl

/-- C2: for every table, every query input and every non-negative
threshold, neither `get_restricted_clonotypes_matching_a_clonotype` nor
`get_restricted_clonotypes_matching_clonotypes` returns a row whose
`distance` exceeds `num_mismatches` (the property in fact holds for every
threshold, the non-negativity hypothesis is the claim's). -/
theorem match_distance_within_threshold (self : HLATCRDBInterface)
    (v_gene j_gene format CDR3_amino_acids : List Char)
    (query_clonotypes : List QueryRecord) (num_mismatches : Int)
    (_hn : 0 ≤ num_mismatches) :
    (∀ rows, get_restricted_clonotypes_matching_a_clonotype self v_gene j_gene format
        CDR3_amino_acids num_mismatches = Except.ok rows →
      ∀ m ∈ rows, (m.distance : Int) ≤ num_mismatches) ∧
    (∀ rows, get_restricted_clonotypes_matching_clonotypes self query_clonotypes format
        num_mismatches = Except.ok rows →
      ∀ m ∈ rows, (m.distance : Int) ≤ num_mismatches) := by
  constructor
  · intro rows hok m hm
    unfold get_restricted_clonotypes_matching_a_clonotype at hok
    split at hok
    · cases hok
    · split at hok
      · cases hok
      · split at hok
        · cases hok
        · injection hok with hok
          subst hok
          rw [List.mem_filter] at hm
          exact of_decide_eq_true hm.2
  · intro rows hok m hm
    unfold get_restricted_clonotypes_matching_clonotypes at hok
    split at hok
    · cases hok
    · injection hok with hok
      subst hok
      rw [List.mem_filter] at hm
      exact of_decide_eq_true hm.2

theorem match_distance_within_threshold_witness :
    (0 : Int) ≤ 1 ∧
    ((MatchedRecord.mk recA 0).distance : Int) ≤ 1 ∧
    ((BulkMatchedRecord.mk recA qrec1 0).distance : Int) ≤ 1 :=
  ⟨by decide,
   (match_distance_within_threshold db1 "V1".data "J1".data adaptiveFmt "CASS".data
       [qrec1] 1 (by decide)).1
     [MatchedRecord.mk recA 0] (by decide) (MatchedRecord.mk recA 0) (by decide),
   (match_distance_within_threshold db1 "V1".data "J1".data adaptiveFmt "CASS".data
       [qrec1] 1 (by decide)).2
     [BulkMatchedRecord.mk recA qrec1 0] (by decide) (BulkMatchedRecord.mk recA qrec1 0)
     (by decide)⟩

/-- C7: `get_restricted_clonotypes_matching_a_clonotype` called with
`num_mismatches = 0` returns only rows whose CDR3 is exactly the query
CDR3 string. -/
theorem single_match_zero_exact (self : HLATCRDBInterface)
    (v_gene j_gene format CDR3_amino_acids : List Char) (rows : List MatchedRecord)
    (hok : get_restricted_clonotypes_matching_a_clonotype self v_gene j_gene format
        CDR3_amino_acids 0 = Except.ok rows)
    (m : MatchedRecord) (hm : m ∈ rows) :
    m.row.CDR3 = CDR3_amino_acids := by
  unfold get_restricted_clonotypes_matching_a_clonotype at hok
  split at hok
  · cases hok
  · split at hok
    · cases hok
    · split at hok
      · cases hok
      · injection hok with hok
        subst hok
        rw [List.mem_filter] at hm
        obtain ⟨hmem, hd⟩ := hm
        have hdle := of_decide_eq_true hd
        obtain ⟨r, hr, hrm⟩ := List.mem_map.mp hmem
        have hd0 : levDist r.CDR3 CDR3_amino_acids = 0 := by
          rw [← hrm] at hdle
          simp only [] at hdle
          omega
        rw [← hrm]
        exact eq_of_levDist_eq_zero _ _ hd0

theorem single_match_zero_exact_witness :
    get_restricted_clonotypes_matching_a_clonotype db1 "V1".data "J1".data adaptiveFmt
      "CASS".data 0 = Except.ok [MatchedRecord.mk recA 0] ∧
    (MatchedRecord.mk recA 0).row.CDR3 = "CASS".data :=
  ⟨by decide,
   single_match_zero_exact db1 "V1".data "J1".data adaptiveFmt "CASS".data
     [MatchedRecord.mk recA 0] (by decide) (MatchedRecord.mk recA 0) (by decide)⟩

/-- C5: a bulk call with a valid format whose post-gene-filter candidate
set is empty returns the empty result set with no error (the line-289
branch only prints an advisory message). -/
theorem bulk_match_empty_gene_filter (self : HLATCRDBInterface)
    (query_clonotypes : List QueryRecord) (format : List Char) (num_mismatches : Int)
    (hfmt : format ∈ [adaptiveFmt, imgtFmt])
    (hempty : geneFilter (crossRows (convertDatabase self._DATA_TYPE format
      self.mapping_rows self._database) query_clonotypes) = []) :
    get_restricted_clonotypes_matching_clonotypes self query_clonotypes format
      num_mismatches = Except.ok [] := by
  unfold get_restricted_clonotypes_matching_clonotypes
  rw [if_neg (not_not_intro hfmt), hempty]
  rfl

def qrec2 : QueryRecord := ⟨"V9".data, "J9".data, "CASS".data⟩

theorem bulk_match_empty_gene_filter_witness :
    adaptiveFmt ∈ [adaptiveFmt, imgtFmt] ∧
    geneFilter (crossRows (convertDatabase db1._DATA_TYPE adaptiveFmt db1.mapping_rows
      db1._database) [qrec2]) = [] ∧
    get_restricted_clonotypes_matching_clonotypes db1 [qrec2] adaptiveFmt 1 =
      Except.ok [] :=
  ⟨by decide, by decide,
   bulk_match_empty_gene_filter db1 [qrec2] adaptiveFmt 1 (by decide) (by decide)⟩

/-- C3: for both fuzzy query paths (which share `convertDatabase` as
their conversion step), gene-name conversion of the working table happens
exactly when the table's native chain/convention pairing differs from the
requested one — a TRB table queried in IMGT is rewritten through
`adaptive_to_imgt_builder`, a TRA table queried in Adaptive through
`imgt_to_adaptive_builder`, and otherwise the table is untouched — and
during conversion every gene name absent from the human rows of the
mapping passes through unchanged. -/
theorem conversion_trigger_and_passthrough (dt : DataType) (format : List Char)
    (mapping_rows : List MappingRow) (db : List AssociationRecord) :
    (dt = DataType.TRB ∧ format = imgtFmt →
      convertDatabase dt format mapping_rows db =
        translateTable (adaptive_to_imgt_builder mapping_rows) db) ∧
    (dt = DataType.TRA ∧ format = adaptiveFmt →
      convertDatabase dt format mapping_rows db =
        translateTable (imgt_to_adaptive_builder mapping_rows) db) ∧
    (¬(dt = DataType.TRB ∧ format = imgtFmt) →
      ¬(dt = DataType.TRA ∧ format = adaptiveFmt) →
      convertDatabase dt format mapping_rows db = db) ∧
    (∀ g, g ∉ (mapping_rows.filter (fun r => r.species = humanStr)).map (·.imgt) →
      pyReplace (imgt_to_adaptive_builder mapping_rows) g = g) ∧
    (∀ g, g ∉ (mapping_rows.filter (fun r => r.species = humanStr)).map (·.adaptive) →
      pyReplace (adaptive_to_imgt_builder mapping_rows) g = g) := by
  refine ⟨?_, ?_, ?_, ?_, ?_⟩
  · rintro ⟨rfl, rfl⟩
    simp [convertDatabase, imgtFmt, adaptiveFmt]
  · rintro ⟨rfl, rfl⟩
    simp [convertDatabase, imgtFmt, adaptiveFmt]
  · intro h1 h2
    unfold convertDatabase
    rw [if_neg h1, if_neg h2]
  · intro g hg
    apply pyReplace_eq_self
    simpa [imgt_to_adaptive_builder, List.map_map, Function.comp] using hg
  · intro g hg
    apply pyReplace_eq_self
    simpa [adaptive_to_imgt_builder, List.map_map, Function.comp] using hg

def mrowH : MappingRow := ⟨"human".data, "TRBV9*01".data, "TCRBV09-01".data⟩

theorem conversion_trigger_and_passthrough_witness :
    convertDatabase DataType.TRB imgtFmt [mrowH] [recA] =
      translateTable (adaptive_to_imgt_builder [mrowH]) [recA] ∧
    convertDatabase DataType.TRA adaptiveFmt [mrowH] [recA] =
      translateTable (imgt_to_adaptive_builder [mrowH]) [recA] ∧
    convertDatabase DataType.TRB adaptiveFmt [mrowH] [recA] = [recA] ∧
    pyReplace (imgt_to_adaptive_builder [mrowH]) "V1".data = "V1".data ∧
    pyReplace (adaptive_to_imgt_builder [mrowH]) "J1".data = "J1".data :=
  ⟨(conversion_trigger_and_passthrough DataType.TRB imgtFmt [mrowH] [recA]).1
     ⟨rfl, rfl⟩,
   (conversion_trigger_and_passthrough DataType.TRA adaptiveFmt [mrowH] [recA]).2.1
     ⟨rfl, rfl⟩,
   (conversion_trigger_and_passthrough DataType.TRB adaptiveFmt [mrowH] [recA]).2.2.1
     (by decide) (by decide),
   (conversion_trigger_and_passthrough DataType.TRB adaptiveFmt [mrowH] [recA]).2.2.2.1
     "V1".data (by decide),
   (conversion_trigger_and_passthrough DataType.TRB adaptiveFmt [mrowH] [recA]).2.2.2.2
     "J1".data (by decide)⟩

theorem pyDictGet?_map_pair {α : Type} (l : List α) (f g : α → List Char) :
    (l.map f).Nodup →
    ∀ r ∈ l, pyDictGet? (l.map (fun x => (f x, g x))) (f r) = some (g r) := by
  induction l with
  | nil => intro _ r hr; cases hr
  | cons x xs ih =>
    intro hn r hr
    rw [List.map_cons, List.nodup_cons] at hn
    obtain ⟨hfx, hnx⟩ := hn
    have hcons : pyDictGet? ((x :: xs).map (fun y => (f y, g y))) (f r) =
        match pyDictGet? (xs.map (fun y => (f y, g y))) (f r) with
        | some v => some v
        | none => if f x = f r then some (g x) else none := rfl
    rw [hcons]
    rcases List.mem_cons.mp hr with rfl | hr'
    · have hnone : pyDictGet? (xs.map (fun y => (f y, g y))) (f r) = none := by
        rw [pyDictGet?_eq_none_iff]
        simpa [List.map_map, Function.comp] using hfx
      rw [hnone]
      simp
    · rw [ih hnx r hr']

def mrowX : MappingRow := ⟨"human".data, "x".data, "a".data⟩

def mrowY : MappingRow := ⟨"human".data, "y".data, "a".data⟩

/-- C8 counterexample: with two human mapping rows pairing distinct IMGT
names `x`, `y` with the same Adaptive name `a` — a legal mapping file for
both builders — the gene `x` is present in the mapping, yet converting it
IMGT→Adaptive and back Adaptive→IMGT yields `y`, not `x`, because the
dict comprehension lets the later row overwrite the shared key. -/
theorem gene_roundtrip_counterexample :
    "x".data ∈ (imgt_to_adaptive_builder [mrowX, mrowY]).map Prod.fst ∧
    pyReplace (adaptive_to_imgt_builder [mrowX, mrowY])
      (pyReplace (imgt_to_adaptive_builder [mrowX, mrowY]) "x".data) = "y".data ∧
    "y".data ≠ "x".data := by decide

/-- C8 amended: if the human rows of the mapping file pair IMGT and
Adaptive names bijectively (no duplicate name in either column), then for
every gene present in the mapping, converting IMGT→Adaptive and back
Adaptive→IMGT yields the original name. -/
theorem gene_roundtrip_amended (mapping_rows : List MappingRow)
    (h1 : ((mapping_rows.filter (fun r => r.species = humanStr)).map (·.imgt)).Nodup)
    (h2 : ((mapping_rows.filter (fun r => r.species = humanStr)).map (·.adaptive)).Nodup)
    (g : List Char)
    (hg : g ∈ (mapping_rows.filter (fun r => r.species = humanStr)).map (·.imgt)) :
    pyReplace (adaptive_to_imgt_builder mapping_rows)
      (pyReplace (imgt_to_adaptive_builder mapping_rows) g) = g := by
  obtain ⟨r, hr, hrg⟩ := List.mem_map.mp hg
  subst hrg
  have e1 : pyDictGet? ((mapping_rows.filter (fun x => x.species = humanStr)).map
      (fun x => (x.imgt, x.adaptive))) r.imgt = some r.adaptive :=
    pyDictGet?_map_pair _ (fun x => x.imgt) (fun x => x.adaptive) h1 r hr
  have e2 : pyDictGet? ((mapping_rows.filter (fun x => x.species = humanStr)).map
      (fun x => (x.adaptive, x.imgt))) r.adaptive = some r.imgt :=
    pyDictGet?_map_pair _ (fun x => x.adaptive) (fun x => x.imgt) h2 r hr
  have p1 : pyReplace (imgt_to_adaptive_builder mapping_rows) r.imgt = r.adaptive := by
    unfold pyReplace imgt_to_adaptive_builder; rw [e1]
  have p2 : pyReplace (adaptive_to_imgt_builder mapping_rows) r.adaptive = r.imgt := by
    unfold pyReplace adaptive_to_imgt_builder; rw [e2]
  rw [p1, p2]

theorem gene_roundtrip_amended_witness :
    (([mrowX, mrowH].filter (fun r => r.species = humanStr)).map (·.imgt)).Nodup ∧
    (([mrowX, mrowH].filter (fun r => r.species = humanStr)).map (·.adaptive)).Nodup ∧
    "x".data ∈ ([mrowX, mrowH].filter (fun r => r.species = humanStr)).map (·.imgt) ∧
    pyReplace (adaptive_to_imgt_builder [mrowX, mrowH])
      (pyReplace (imgt_to_adaptive_builder [mrowX, mrowH]) "x".data) = "x".data :=
  ⟨by decide, by decide, by decide,
   gene_roundtrip_amended [mrowX, mrowH] (by decide) (by decide) "x".data (by decide)⟩

theorem copyConvertHeap_length (h : Heap) (dt : DataType) (format : List Char)
    (mapping_rows : List MappingRow) (db : List AssociationRecord) :
    (copyConvertHeap h dt format mapping_rows db).length = h.length + 1 := by
  unfold copyConvertHeap
  split <;> simp

theorem copyConvertHeap_preserves (h : Heap) (dt : DataType) (format : List Char)
    (mapping_rows : List MappingRow) (db : List AssociationRecord) :
    PreservesBelow h (copyConvertHeap h dt format mapping_rows db) := by
  unfold copyConvertHeap
  split
  · exact preservesBelow_set _ _ (preservesBelow_append _ _ (preservesBelow_refl h) _)
      _ (le_refl _) _
  · exact preservesBelow_append _ _ (preservesBelow_refl h) _

theorem get_clonotypes_heap_fst (h : Heap) (selfRef : Nat) (allele_name : List Char) :
    (get_clonotypes_heap h selfRef allele_name).1 = h := by
  unfold get_clonotypes_heap
  split <;> rfl

theorem single_match_heap_preserves (h : Heap) (selfRef : Nat) (dt : DataType)
    (mapping_rows : List MappingRow) (v_gene j_gene format CDR3_amino_acids : List Char)
    (num_mismatches : Int) :
    PreservesBelow h (single_match_heap h selfRef dt mapping_rows v_gene j_gene format
      CDR3_amino_acids num_mismatches).1 := by
  unfold single_match_heap
  split
  · split
    · exact preservesBelow_refl h
    · split
      · exact copyConvertHeap_preserves h dt format mapping_rows _
      · split
        · exact copyConvertHeap_preserves h dt format mapping_rows _
        · simp only []
          refine preservesBelow_append _ _ (preservesBelow_set _ _
            (preservesBelow_append _ _ (copyConvertHeap_preserves h dt format mapping_rows _) _)
            _ ?_ _) _
          rw [copyConvertHeap_length]
          omega
  · exact preservesBelow_refl h

theorem bulk_match_heap_preserves (h : Heap) (selfRef queryRef : Nat) (dt : DataType)
    (mapping_rows : List MappingRow) (format : List Char) (num_mismatches : Int) :
    PreservesBelow h (bulk_match_heap h selfRef queryRef dt mapping_rows format
      num_mismatches).1 := by
  unfold bulk_match_heap
  split
  · split
    · exact preservesBelow_refl h
    · simp only []
      refine preservesBelow_append _ _ (preservesBelow_set _ _
        (preservesBelow_append _ _ (preservesBelow_append _ _ (preservesBelow_append _ _
          (preservesBelow_append _ _ (copyConvertHeap_preserves h dt format mapping_rows _) _)
            _) _) _) _ ?_ _) _
      simp only [List.length_append, copyConvertHeap_length]
      omega
  · exact preservesBelow_refl h

/-- C9: every query operation leaves every heap object that existed
before the call — in particular the engine's stored association table at
`selfRef` and, for the bulk query, the caller's `query_clonotypes` table
at `queryRef` — unchanged.  The allele lookup returns the heap untouched;
the two fuzzy matchers only allocate fresh frames (deep copies, renames,
merges, `.loc` selections) and write in place nothing but frames they
allocated themselves, so conversion operates only on a derived working
copy. -/
theorem queries_leave_tables_unchanged (h : Heap) (selfRef queryRef i : Nat)
    (hi : i < h.length) (dt : DataType) (mapping_rows : List MappingRow)
    (allele_name v_gene j_gene format CDR3_amino_acids : List Char)
    (num_mismatches : Int) :
    (get_clonotypes_heap h selfRef allele_name).1 = h ∧
    (single_match_heap h selfRef dt mapping_rows v_gene j_gene format CDR3_amino_acids
        num_mismatches).1[i]? = h[i]? ∧
    (bulk_match_heap h selfRef queryRef dt mapping_rows format num_mismatches).1[i]? =
      h[i]? :=
  ⟨get_clonotypes_heap_fst h selfRef allele_name,
   (single_match_heap_preserves h selfRef dt mapping_rows v_gene j_gene format
      CDR3_amino_acids num_mismatches).2 i hi,
   (bulk_match_heap_preserves h selfRef queryRef dt mapping_rows format
      num_mismatches).2 i hi⟩

def heap1 : Heap := [FrameVal.assoc [recA], FrameVal.query [qrec1]]

theorem queries_leave_tables_unchanged_witness :
    (0 : Nat) < heap1.length ∧
    (get_clonotypes_heap heap1 0 "A-02:01".data).1 = heap1 ∧
    (single_match_heap heap1 0 DataType.TRB [] "V1".data "J1".data adaptiveFmt
        "CASS".data 1).1[0]? = heap1[0]? ∧
    (bulk_match_heap heap1 0 1 DataType.TRB [] adaptiveFmt 1).1[0]? = heap1[0]? :=
  ⟨by decide,
   (queries_leave_tables_unchanged heap1 0 1 0 (by decide) DataType.TRB []
      "A-02:01".data "V1".data "J1".data adaptiveFmt "CASS".data 1).1,
   (queries_leave_tables_unchanged heap1 0 1 0 (by decide) DataType.TRB []
      "A-02:01".data "V1".data "J1".data adaptiveFmt "CASS".data 1).2.1,
   (queries_leave_tables_unchanged heap1 0 1 0 (by decide) DataType.TRB []
      "A-02:01".data "V1".data "J1".data adaptiveFmt "CASS".data 1).2.2⟩
